import Mathlib

/-!
Verification of the event status / notification subsystem and the init-options
marshaling of `rmw_zenoh_cpp` (files `src/rmw_zenoh_cpp/src/detail/event.hpp`
and `src/rmw_zenoh_cpp/src/rmw_init_options.cpp`).

The repository slice contains only the header `event.hpp` for the event
subsystem (the declarations of `rmw_zenoh_event_status_t`,
`DataCallbackManager` and `EventsManager`); the implementation file
`event.cpp` is not part of the slice, so the bodies of the event operations
are modelled from the specification, as marked on each definition.
`rmw_init_options.cpp` is present in full and is translated directly.
-/

namespace RmwZenoh

/-- The event kind enumeration from `event.hpp` (lines 32-49): a sentinel
`ZENOH_EVENT_INVALID` plus seven concrete event kinds. -/
inductive rmw_zenoh_event_type_t where
  | ZENOH_EVENT_INVALID
  | ZENOH_EVENT_REQUESTED_QOS_INCOMPATIBLE
  | ZENOH_EVENT_MESSAGE_LOST
  | ZENOH_EVENT_SUBSCRIPTION_INCOMPATIBLE_TYPE
  | ZENOH_EVENT_SUBSCRIPTION_MATCHED
  | ZENOH_EVENT_OFFERED_QOS_INCOMPATIBLE
  | ZENOH_EVENT_PUBLISHER_INCOMPATIBLE_TYPE
  | ZENOH_EVENT_PUBLICATION_MATCHED
  deriving DecidableEq, Repr

open rmw_zenoh_event_type_t

/-- The status record declared in `event.hpp` (lines 58-71).  The C++ struct
declares `size_t total_count`, `size_t total_count_change`,
`size_t current_count`, `int32_t current_count_change`, `std::string data`
and `bool changed`.  The update semantics live in the missing `event.cpp`;
the spec describes `current_count` as a signed level counter (it "can
increase or decrease") equal to the running sum of signed deltas, so the
level counters are modelled as `Int` and the monotone occurrence counters
as `Nat`. -/
structure rmw_zenoh_event_status_t where
  total_count : Nat
  total_count_change : Nat
  current_count : Int
  current_count_change : Int
  data : String
  changed : Bool
  deriving DecidableEq, Repr

/-- Modelled from the spec: the constructor `rmw_zenoh_event_status_t()`
(declared `event.hpp` line 70, body in the missing `event.cpp`); the spec
says records are "created zero-valued when the registry is constructed". -/
def rmw_zenoh_event_status_t.init : rmw_zenoh_event_status_t :=
  { total_count := 0
    total_count_change := 0
    current_count := 0
    current_count_change := 0
    data := ""
    changed := false }

/-- A callback is modelled as an opaque identifier; `none` is the null
callback pointer.  An invocation records which callback was called, the
user token passed to it, and the occurrence-count argument. -/
structure Invocation where
  callback : Nat
  user_data : Option Nat
  count : Nat
  deriving DecidableEq, Repr

/-- The `DataCallbackManager` state from `event.hpp` (lines 76-96): one
optional callback, its user token, and the backlog counter
`unread_count_`. -/
structure DataCallbackManager where
  callback : Option Nat
  user_data : Option Nat
  unread_count : Nat
  deriving DecidableEq, Repr

/-- A fresh `DataCallbackManager`: the in-class initializers of `event.hpp`
lines 91-95 (`nullptr`, `nullptr`, `0`). -/
def DataCallbackManager.init : DataCallbackManager :=
  { callback := none, user_data := none, unread_count := 0 }

/-- Modelled from the spec: `DataCallbackManager::set_callback` (declared
`event.hpp` line 83, body in the missing `event.cpp`).  Under the lock, if
the new callback is non-null and the backlog counter is nonzero, invoke the
callback once per backlogged occurrence (passing `1` each time) and reset
the backlog to 0; then store `(token, callback)`.  A null callback
uninstalls any existing callback.  Returns the new state and the list of
invocations performed. -/
def DataCallbackManager.set_callback (s : DataCallbackManager)
    (user_data : Option Nat) (callback : Option Nat) :
    DataCallbackManager × List Invocation :=
  match callback with
  | some cb =>
      ({ callback := some cb, user_data := user_data, unread_count := 0 },
        List.replicate s.unread_count ⟨cb, user_data, 1⟩)
  | none =>
      ({ callback := none, user_data := user_data,
         unread_count := s.unread_count }, [])

/-- Modelled from the spec: `DataCallbackManager::trigger_callback`
(declared `event.hpp` line 86, body in the missing `event.cpp`).  If a
callback is installed, invoke it once with the stored token and a fixed
argument of `1`; otherwise increment the backlog counter by 1. -/
def DataCallbackManager.trigger_callback (s : DataCallbackManager) :
    DataCallbackManager × List Invocation :=
  match s.callback with
  | some cb => (s, [⟨cb, s.user_data, 1⟩])
  | none => ({ s with unread_count := s.unread_count + 1 }, [])

/-- The `EventsManager` state from `event.hpp` (lines 99-151): per event
kind, a wait-set attachment `wait_set_data_`, a callback `event_callback_`
with its token `event_data_`, a backlog counter `event_unread_count_`, and
a status record `event_statuses_`.  The fixed-size C arrays indexed by the
enum are modelled as total functions on the enum; waiters
(`rmw_wait_set_data_t *`) are opaque identifiers with `none` for the null
pointer. -/
structure EventsManager where
  wait_set_data : rmw_zenoh_event_type_t → Option Nat
  event_callback : rmw_zenoh_event_type_t → Option Nat
  event_data : rmw_zenoh_event_type_t → Option Nat
  event_unread_count : rmw_zenoh_event_type_t → Nat
  event_statuses : rmw_zenoh_event_type_t → rmw_zenoh_event_status_t

/-- A freshly constructed `EventsManager`: the in-class initializers of
`event.hpp` lines 144-150 (all null / zero / zero-valued records). -/
def EventsManager.init : EventsManager :=
  { wait_set_data := fun _ => none
    event_callback := fun _ => none
    event_data := fun _ => none
    event_unread_count := fun _ => 0
    event_statuses := fun _ => rmw_zenoh_event_status_t.init }

/-- Modelled from the spec: `EventsManager::take_event_status` (declared
`event.hpp` line 113, body in the missing `event.cpp`).  Atomically read the
full record, then reset `total_count_change := 0`,
`current_count_change := 0`, `changed := false`, leaving `total_count`,
`current_count` and `data` untouched; return the pre-reset snapshot. -/
def EventsManager.take_event_status (s : EventsManager)
    (event_id : rmw_zenoh_event_type_t) :
    rmw_zenoh_event_status_t × EventsManager :=
  let st := s.event_statuses event_id
  let cleared : rmw_zenoh_event_status_t :=
    { st with total_count_change := 0, current_count_change := 0,
              changed := false }
  (st, { s with event_statuses := Function.update s.event_statuses event_id cleared })

/-- Result of one `update_event_status` call: the new registry state, the
callback invocations it performed, and the waiter it signalled (if one was
attached to the kind). -/
structure UpdateResult where
  state : EventsManager
  invocations : List Invocation
  signalled : Option Nat

/-- Modelled from the spec: `EventsManager::update_event_status` (declared
`event.hpp` lines 118-120, body in the missing `event.cpp`).  Under the
state lock: `total_count += 1`, `total_count_change += 1`,
`current_count += delta`, `current_count_change += delta`,
`changed := true`; then trigger the per-kind callback (invoke it once with
argument `1` if installed, else increment the per-kind backlog), and wake
the waiter currently attached to the kind, if any. -/
def EventsManager.update_event_status (s : EventsManager)
    (event_id : rmw_zenoh_event_type_t) (current_count_change : Int) :
    UpdateResult :=
  let st := s.event_statuses event_id
  let st' : rmw_zenoh_event_status_t :=
    { st with total_count := st.total_count + 1
              total_count_change := st.total_count_change + 1
              current_count := st.current_count + current_count_change
              current_count_change :=
                st.current_count_change + current_count_change
              changed := true }
  let s1 : EventsManager :=
    { s with event_statuses := Function.update s.event_statuses event_id st' }
  match s1.event_callback event_id with
  | some cb =>
      { state := s1
        invocations := [⟨cb, s1.event_data event_id, 1⟩]
        signalled := s1.wait_set_data event_id }
  | none =>
      let cnt := s1.event_unread_count event_id + 1
      let backlogged : EventsManager :=
        { s1 with event_unread_count := Function.update s1.event_unread_count event_id cnt }
      { state := backlogged
        invocations := []
        signalled := s1.wait_set_data event_id }

/-- Modelled from the spec: `EventsManager::event_set_callback` (declared
`event.hpp` lines 106-109, body in the missing `event.cpp`).  Same
semantics as `DataCallbackManager.set_callback`, scoped to the kind's own
backlog/callback pair: a non-null callback is first invoked once per
backlogged occurrence with argument `1`, the backlog is reset to 0, and the
`(token, callback)` pair is stored; a null callback uninstalls. -/
def EventsManager.event_set_callback (s : EventsManager)
    (event_id : rmw_zenoh_event_type_t) (callback : Option Nat)
    (user_data : Option Nat) : EventsManager × List Invocation :=
  match callback with
  | some cb =>
      ({ s with
          event_callback := Function.update s.event_callback event_id (some cb)
          event_data := Function.update s.event_data event_id user_data
          event_unread_count :=
            Function.update s.event_unread_count event_id 0 },
        List.replicate (s.event_unread_count event_id) ⟨cb, user_data, 1⟩)
  | none =>
      ({ s with
          event_callback := Function.update s.event_callback event_id none
          event_data := Function.update s.event_data event_id user_data },
        [])

/-- Modelled from the spec:
`EventsManager::queue_has_data_and_attach_condition_if_not` (declared
`event.hpp` lines 124-126, body in the missing `event.cpp`).  Under the
lock: if `changed` is already true for the kind, return `true` without
attaching; otherwise store the waiter as the kind's attachment and return
`false`. -/
def EventsManager.queue_has_data_and_attach_condition_if_not
    (s : EventsManager) (event_id : rmw_zenoh_event_type_t)
    (wait_set_data : Nat) : Bool × EventsManager :=
  if (s.event_statuses event_id).changed then
    (true, s)
  else
    (false,
      { s with wait_set_data :=
          Function.update s.wait_set_data event_id (some wait_set_data) })

/-- Modelled from the spec:
`EventsManager::detach_condition_and_event_queue_is_empty` (declared
`event.hpp` line 129, body in the missing `event.cpp`).  Under the lock:
clear the attachment for the kind and return whether `changed` is currently
false (nothing left to read). -/
def EventsManager.detach_condition_and_event_queue_is_empty
    (s : EventsManager) (event_id : rmw_zenoh_event_type_t) :
    Bool × EventsManager :=
  (!(s.event_statuses event_id).changed,
    { s with wait_set_data := Function.update s.wait_set_data event_id none })

/-- Fold a list of `update_event_status` calls (deltas, oldest first) on one
kind through the registry, keeping only the state. -/
def EventsManager.applyUpdates (s : EventsManager)
    (event_id : rmw_zenoh_event_type_t) (deltas : List Int) : EventsManager :=
  deltas.foldl (fun t d => (t.update_event_status event_id d).state) s

/-! ### `rmw_init_options.cpp`

The three functions of `src/rmw_zenoh_cpp/src/rmw_init_options.cpp` are
translated directly.  Pointers that may be null are `Option`; the pointee
written back through an out-pointer is returned alongside the `rmw_ret_t`.
The external collaborators (`rmw_security_options_copy`,
`rmw_discovery_options_copy`, `rmw_discovery_options_init`,
`rmw_security_options_fini`, `rmw_discovery_options_fini`,
`rcutils_strdup`) and the external option values are abstracted into an
environment record `Env`; security and discovery option values are opaque
`Nat` tokens. -/

/-- The `rmw_ret_t` return codes used by `rmw_init_options.cpp`. -/
inductive rmw_ret_t where
  | RMW_RET_OK
  | RMW_RET_INVALID_ARGUMENT
  | RMW_RET_INCORRECT_RMW_IMPLEMENTATION
  | RMW_RET_BAD_ALLOC
  | RMW_RET_ERROR
  deriving DecidableEq, Repr

open rmw_ret_t

/-- `rcutils_allocator_t`: only its validity (what `RCUTILS_CHECK_ALLOCATOR`
tests) and an identity are observable here. -/
structure rcutils_allocator_t where
  valid : Bool
  id : Nat
  deriving DecidableEq, Repr

/-- `rmw_init_options_t` with the fields `rmw_init_options.cpp` touches.
`implementation_identifier` is a nullable string pointer; `enclave` a
nullable owned string; `impl` a nullable opaque pointer; security and
discovery options are opaque tokens. -/
structure rmw_init_options_t where
  instance_id : Nat
  implementation_identifier : Option String
  domain_id : Nat
  security_options : Nat
  discovery_options : Nat
  enclave : Option String
  impl : Option Nat
  allocator : rcutils_allocator_t
  deriving DecidableEq, Repr

/-- The zeroed allocator inside a zero-initialized options struct (invalid:
all its function pointers are null). -/
def zero_allocator : rcutils_allocator_t := { valid := false, id := 0 }

/-- `rmw_get_zero_initialized_init_options()`: an all-zero struct (null
pointers, zero counters, zeroed allocator).  The zero token `0` stands for
zeroed security/discovery option values. -/
def rmw_get_zero_initialized_init_options : rmw_init_options_t :=
  { instance_id := 0
    implementation_identifier := none
    domain_id := 0
    security_options := 0
    discovery_options := 0
    enclave := none
    impl := none
    allocator := zero_allocator }

/-- `rmw_zenoh_cpp::rmw_zenoh_identifier` from `detail/identifier.hpp`. -/
def rmw_zenoh_identifier : String := "rmw_zenoh_cpp"

/-- The `RMW_DEFAULT_DOMAIN_ID` macro constant (its exact numeric value is
immaterial to the claims; rmw defines it as `UINT_MAX`). -/
def RMW_DEFAULT_DOMAIN_ID : Nat := 4294967295

/-- Abstract behavior of the external rmw / rcutils collaborators called by
`rmw_init_options.cpp`.  Each function returns what the corresponding C
call returns; copy-style calls also return the value stored through their
out-pointer.  `strdup` returns `none` when allocation fails (null). -/
structure Env where
  default_security_options : Nat
  security_copy : Nat → rcutils_allocator_t → rmw_ret_t × Nat
  discovery_copy : Nat → rcutils_allocator_t → rmw_ret_t × Nat
  discovery_init : Nat → rcutils_allocator_t → rmw_ret_t × Nat
  security_fini : Nat → rcutils_allocator_t → rmw_ret_t
  discovery_fini : Nat → rmw_ret_t
  strdup : String → rcutils_allocator_t → Option String

/-- `rmw_init_options_init` (`rmw_init_options.cpp` lines 32-52).  In order:
null check on `init_options`, `RCUTILS_CHECK_ALLOCATOR`, rejection of a
non-null `implementation_identifier`; then `memset` to zero, assignment of
the zenoh identifier, allocator, defaults, and zero-initialized discovery
options; finally the result of `rmw_discovery_options_init` on those
discovery options is returned.  The returned pair is
`(rmw_ret_t, final value of *init_options)`. -/
def rmw_init_options_init (env : Env)
    (init_options : Option rmw_init_options_t)
    (allocator : rcutils_allocator_t) : rmw_ret_t × Option rmw_init_options_t :=
  match init_options with
  | none => (RMW_RET_INVALID_ARGUMENT, none)
  | some opts =>
    if !allocator.valid then
      (RMW_RET_INVALID_ARGUMENT, some opts)
    else if opts.implementation_identifier ≠ none then
      (RMW_RET_INVALID_ARGUMENT, some opts)
    else
      let zeroed := rmw_get_zero_initialized_init_options
      let filled : rmw_init_options_t :=
        { zeroed with
            instance_id := 0
            implementation_identifier := some rmw_zenoh_identifier
            allocator := allocator
            impl := none
            enclave := none
            domain_id := RMW_DEFAULT_DOMAIN_ID
            security_options := env.default_security_options
            discovery_options := 0 }
      let discRes := env.discovery_init filled.discovery_options allocator
      (discRes.fst, some { filled with discovery_options := discRes.snd })

/-- `rmw_init_options_copy` (`rmw_init_options.cpp` lines 56-129).  In
order: null checks on `src` and `dst`, `src` must be initialized with the
zenoh identifier, `dst` must be zero-initialized, the source allocator must
be valid; then a stack copy `tmp` of `src` receives a copied security
options value, a copied discovery options value and a duplicated enclave
(each failure returning early, the scope guards unwinding `tmp` only), and
only after all three succeed is `tmp` assigned to `*dst`.  The returned
pair is `(rmw_ret_t, final value of *dst)`. -/
def rmw_init_options_copy (env : Env)
    (src : Option rmw_init_options_t) (dst : Option rmw_init_options_t) :
    rmw_ret_t × Option rmw_init_options_t :=
  match src with
  | none => (RMW_RET_INVALID_ARGUMENT, dst)
  | some s =>
    match dst with
    | none => (RMW_RET_INVALID_ARGUMENT, none)
    | some d =>
      if s.implementation_identifier = none then
        (RMW_RET_INVALID_ARGUMENT, some d)
      else if s.implementation_identifier ≠ some rmw_zenoh_identifier then
        (RMW_RET_INCORRECT_RMW_IMPLEMENTATION, some d)
      else if d.implementation_identifier ≠ none then
        (RMW_RET_INVALID_ARGUMENT, some d)
      else
        let allocator := s.allocator
        if !allocator.valid then
          (RMW_RET_INVALID_ARGUMENT, some d)
        else
          let tmp0 : rmw_init_options_t :=
            { s with implementation_identifier := some rmw_zenoh_identifier
                     security_options := 0 }
          let secRes := env.security_copy s.security_options allocator
          if secRes.fst ≠ RMW_RET_OK then
            (secRes.fst, some d)
          else
            let tmp1 : rmw_init_options_t :=
              { tmp0 with security_options := secRes.snd
                          discovery_options := 0 }
            let discRes := env.discovery_copy s.discovery_options allocator
            if discRes.fst ≠ RMW_RET_OK then
              (discRes.fst, some d)
            else
              let tmp2 : rmw_init_options_t :=
                { tmp1 with discovery_options := discRes.snd
                            enclave := none }
              match s.enclave with
              | some e =>
                match env.strdup e allocator with
                | none => (RMW_RET_BAD_ALLOC, some d)
                | some e2 =>
                  let tmp3 : rmw_init_options_t :=
                    { tmp2 with enclave := some e2
                                allocator := s.allocator
                                impl := s.impl }
                  (RMW_RET_OK, some tmp3)
              | none =>
                let tmp3 : rmw_init_options_t :=
                  { tmp2 with allocator := s.allocator, impl := s.impl }
                (RMW_RET_OK, some tmp3)

/-- `rmw_init_options_fini` (`rmw_init_options.cpp` lines 133-159).  In
order: null check, rejection of a null `implementation_identifier`,
identifier match check, `RCUTILS_CHECK_ALLOCATOR`; then the enclave is
deallocated (no field of the struct changes), a failing
`rmw_security_options_fini` returns its error with `*init_options`
untouched, and otherwise `*init_options` is zeroed and the result of
`rmw_discovery_options_fini` is returned. -/
def rmw_init_options_fini (env : Env)
    (init_options : Option rmw_init_options_t) :
    rmw_ret_t × Option rmw_init_options_t :=
  match init_options with
  | none => (RMW_RET_INVALID_ARGUMENT, none)
  | some o =>
    if o.implementation_identifier = none then
      (RMW_RET_INVALID_ARGUMENT, some o)
    else if o.implementation_identifier ≠ some rmw_zenoh_identifier then
      (RMW_RET_INCORRECT_RMW_IMPLEMENTATION, some o)
    else if !o.allocator.valid then
      (RMW_RET_INVALID_ARGUMENT, some o)
    else
      let ret := env.security_fini o.security_options o.allocator
      if ret ≠ RMW_RET_OK then
        (ret, some o)
      else
        (env.discovery_fini o.discovery_options,
          some rmw_get_zero_initialized_init_options)

/-! ### Helper lemmas about the event registry -/

theorem take_event_status_fst (s : EventsManager) (k : rmw_zenoh_event_type_t) :
    (s.take_event_status k).fst = s.event_statuses k := rfl

theorem take_event_status_snd_self (s : EventsManager) (k : rmw_zenoh_event_type_t) :
    (s.take_event_status k).snd.event_statuses k =
      { s.event_statuses k with total_count_change := 0, current_count_change := 0,
                                changed := false } := by
  simp [EventsManager.take_event_status]

theorem update_event_status_state_statuses_self (s : EventsManager)
    (k : rmw_zenoh_event_type_t) (d : Int) :
    (s.update_event_status k d).state.event_statuses k =
      { total_count := (s.event_statuses k).total_count + 1
        total_count_change := (s.event_statuses k).total_count_change + 1
        current_count := (s.event_statuses k).current_count + d
        current_count_change := (s.event_statuses k).current_count_change + d
        data := (s.event_statuses k).data
        changed := true } := by
  cases h : s.event_callback k <;> simp [EventsManager.update_event_status, h]

theorem update_event_status_state_callback (s : EventsManager)
    (k : rmw_zenoh_event_type_t) (d : Int) :
    (s.update_event_status k d).state.event_callback = s.event_callback := by
  cases h : s.event_callback k <;> simp [EventsManager.update_event_status, h]

theorem update_event_status_state_data (s : EventsManager)
    (k : rmw_zenoh_event_type_t) (d : Int) :
    (s.update_event_status k d).state.event_data = s.event_data := by
  cases h : s.event_callback k <;> simp [EventsManager.update_event_status, h]

theorem update_event_status_state_wait (s : EventsManager)
    (k : rmw_zenoh_event_type_t) (d : Int) :
    (s.update_event_status k d).state.wait_set_data = s.wait_set_data := by
  cases h : s.event_callback k <;> simp [EventsManager.update_event_status, h]

theorem update_event_status_signalled (s : EventsManager)
    (k : rmw_zenoh_event_type_t) (d : Int) :
    (s.update_event_status k d).signalled = s.wait_set_data k := by
  cases h : s.event_callback k <;> simp [EventsManager.update_event_status, h]

theorem update_event_status_unread_none (s : EventsManager)
    (k : rmw_zenoh_event_type_t) (d : Int) (h : s.event_callback k = none) :
    (s.update_event_status k d).state.event_unread_count k =
        s.event_unread_count k + 1 ∧
      (s.update_event_status k d).invocations = [] := by
  simp [EventsManager.update_event_status, h]

theorem update_event_status_unread_some (s : EventsManager)
    (k : rmw_zenoh_event_type_t) (d : Int) (cb : Nat)
    (h : s.event_callback k = some cb) :
    (s.update_event_status k d).state.event_unread_count =
        s.event_unread_count ∧
      (s.update_event_status k d).invocations = [⟨cb, s.event_data k, 1⟩] := by
  simp [EventsManager.update_event_status, h]

theorem applyUpdates_nil (s : EventsManager) (k : rmw_zenoh_event_type_t) :
    s.applyUpdates k [] = s := rfl

theorem applyUpdates_cons (s : EventsManager) (k : rmw_zenoh_event_type_t)
    (d : Int) (ds : List Int) :
    s.applyUpdates k (d :: ds) =
      ((s.update_event_status k d).state).applyUpdates k ds := rfl

theorem applyUpdates_statuses_self (k : rmw_zenoh_event_type_t) :
    ∀ (ds : List Int) (s : EventsManager),
    (s.applyUpdates k ds).event_statuses k =
      { total_count := (s.event_statuses k).total_count + ds.length
        total_count_change := (s.event_statuses k).total_count_change + ds.length
        current_count := (s.event_statuses k).current_count + ds.sum
        current_count_change := (s.event_statuses k).current_count_change + ds.sum
        data := (s.event_statuses k).data
        changed := ((s.event_statuses k).changed || !ds.isEmpty) } := by
  intro ds
  induction ds with
  | nil => intro s; simp [applyUpdates_nil]
  | cons d rest ih =>
      intro s
      rw [applyUpdates_cons, ih, update_event_status_state_statuses_self]
      simp
      refine ⟨by omega, by omega, by ring, by ring⟩

theorem applyUpdates_callback (k : rmw_zenoh_event_type_t) :
    ∀ (ds : List Int) (s : EventsManager),
    (s.applyUpdates k ds).event_callback = s.event_callback := by
  intro ds
  induction ds with
  | nil => intro s; rfl
  | cons d rest ih =>
      intro s
      rw [applyUpdates_cons, ih, update_event_status_state_callback]

theorem applyUpdates_unread_none (k : rmw_zenoh_event_type_t) :
    ∀ (ds : List Int) (s : EventsManager), s.event_callback k = none →
    (s.applyUpdates k ds).event_unread_count k =
      s.event_unread_count k + ds.length := by
  intro ds
  induction ds with
  | nil => intro s _; rfl
  | cons d rest ih =>
      intro s h
      rw [applyUpdates_cons, ih]
      · rw [(update_event_status_unread_none s k d h).1]
        simp; omega
      · rw [update_event_status_state_callback]; exact h

/-- All registry states reachable from a freshly constructed
`EventsManager` by its five public operations. -/
inductive Reachable : EventsManager → Prop where
  | base : Reachable EventsManager.init
  | set_cb (k : rmw_zenoh_event_type_t) (cb tok : Option Nat) {s : EventsManager} :
      Reachable s → Reachable (s.event_set_callback k cb tok).fst
  | update (k : rmw_zenoh_event_type_t) (d : Int) {s : EventsManager} :
      Reachable s → Reachable (s.update_event_status k d).state
  | take (k : rmw_zenoh_event_type_t) {s : EventsManager} :
      Reachable s → Reachable (s.take_event_status k).snd
  | attach (k : rmw_zenoh_event_type_t) (w : Nat) {s : EventsManager} :
      Reachable s → Reachable (s.queue_has_data_and_attach_condition_if_not k w).snd
  | detach (k : rmw_zenoh_event_type_t) {s : EventsManager} :
      Reachable s → Reachable (s.detach_condition_and_event_queue_is_empty k).snd

theorem reachable_unread_callback {s : EventsManager} (hs : Reachable s) :
    ∀ k, 0 < s.event_unread_count k → s.event_callback k = none := by
  induction hs with
  | base => intro k h; simp [EventsManager.init] at h
  | set_cb k' cb tok _ ih =>
      intro k h
      cases cb with
      | none =>
          simp only [EventsManager.event_set_callback] at h ⊢
          by_cases hk : k = k'
          · subst hk; simp
          · simp only [Function.update_noteq hk]
            exact ih k h
      | some c =>
          simp only [EventsManager.event_set_callback] at h ⊢
          by_cases hk : k = k'
          · subst hk; simp at h
          · simp only [Function.update_noteq hk] at h ⊢
            exact ih k h
  | update k' d hr ih =>
      rename_i s'
      intro k h
      rw [update_event_status_state_callback]
      cases hcb : s'.event_callback k' with
      | some c =>
          rw [(update_event_status_unread_some s' k' d c hcb).1] at h
          exact ih k h
      | none =>
          by_cases hk : k = k'
          · subst hk; exact hcb
          · simp only [EventsManager.update_event_status, hcb] at h
            simp only [Function.update_noteq hk] at h
            exact ih k h
  | take k' _ ih =>
      intro k h
      simp only [EventsManager.take_event_status] at h ⊢
      exact ih k h
  | attach k' w hr ih =>
      rename_i s'
      intro k h
      simp only [EventsManager.queue_has_data_and_attach_condition_if_not] at h ⊢
      by_cases hc : (s'.event_statuses k').changed <;>
        simp [hc] at h ⊢ <;> exact ih k h
  | detach k' _ ih =>
      intro k h
      simp only [EventsManager.detach_condition_and_event_queue_is_empty] at h ⊢
      exact ih k h

/-! ### Claim theorems for the event subsystem -/

/-- C1: `take_event_status` returns the pre-reset snapshot of the kind's
record and then resets `total_count_change`, `current_count_change` and
`changed` while leaving `total_count`, `current_count` and `data`
unchanged; a second take with no intervening update reports
`changed = false` and zero deltas; and after a take followed by the update
deltas `ds`, the next take reports `total_count_change = ds.length` and
`current_count_change = ds.sum`. -/
theorem take_status_read_and_clear (s : EventsManager)
    (k : rmw_zenoh_event_type_t) (ds : List Int) :
    (s.take_event_status k).fst = s.event_statuses k ∧
    (s.take_event_status k).snd.event_statuses k =
      { s.event_statuses k with total_count_change := 0,
                                current_count_change := 0, changed := false } ∧
    ((s.take_event_status k).snd.take_event_status k).fst.changed = false ∧
    ((s.take_event_status k).snd.take_event_status k).fst.total_count_change = 0 ∧
    ((s.take_event_status k).snd.take_event_status k).fst.current_count_change = 0 ∧
    (((s.take_event_status k).snd.applyUpdates k ds).take_event_status
        k).fst.total_count_change = ds.length ∧
    (((s.take_event_status k).snd.applyUpdates k ds).take_event_status
        k).fst.current_count_change = ds.sum := by
  refine ⟨rfl, take_event_status_snd_self s k, ?_, ?_, ?_, ?_, ?_⟩ <;>
    rw [take_event_status_fst] <;>
    simp [applyUpdates_statuses_self, take_event_status_snd_self]

/-- C5: each `update_event_status` call increments `total_count` by exactly
1; after the update deltas `ds` on a kind, `total_count` has grown by
exactly `ds.length` and `current_count` by the (possibly negative) sum
`ds.sum`; from construction, `total_count = ds.length` and
`current_count = ds.sum` — neither counter is ever reset by updates. -/
theorem update_status_counter_arithmetic (s : EventsManager)
    (k : rmw_zenoh_event_type_t) (d : Int) (ds : List Int) :
    ((s.update_event_status k d).state.event_statuses k).total_count =
        (s.event_statuses k).total_count + 1 ∧
    ((s.applyUpdates k ds).event_statuses k).total_count =
        (s.event_statuses k).total_count + ds.length ∧
    ((s.applyUpdates k ds).event_statuses k).current_count =
        (s.event_statuses k).current_count + ds.sum ∧
    ((EventsManager.init.applyUpdates k ds).event_statuses k).total_count =
        ds.length ∧
    ((EventsManager.init.applyUpdates k ds).event_statuses k).current_count =
        ds.sum := by
  refine ⟨?_, ?_, ?_, ?_, ?_⟩ <;>
    simp [update_event_status_state_statuses_self, applyUpdates_statuses_self,
      EventsManager.init, rmw_zenoh_event_status_t.init]

/-- C2: starting with no installed callback and an empty backlog, the
update occurrences `ds` produce a backlog of `ds.length`; installing a
non-null callback then invokes it exactly `ds.length` times, each with the
stored token and count argument 1, resets the backlog to 0, and stores the
callback; installing a null callback uninstalls it, after which a further
occurrence accumulates backlog again. -/
theorem backlog_conservation (s : EventsManager) (k : rmw_zenoh_event_type_t)
    (ds : List Int) (cb : Nat) (tok : Option Nat) (d : Int)
    (hcb : s.event_callback k = none) (hn : s.event_unread_count k = 0) :
    (s.applyUpdates k ds).event_unread_count k = ds.length ∧
    ((s.applyUpdates k ds).event_set_callback k (some cb) tok).snd =
      List.replicate ds.length ⟨cb, tok, 1⟩ ∧
    ((s.applyUpdates k ds).event_set_callback k (some cb)
        tok).fst.event_unread_count k = 0 ∧
    ((s.applyUpdates k ds).event_set_callback k (some cb)
        tok).fst.event_callback k = some cb ∧
    (((s.applyUpdates k ds).event_set_callback k (some cb)
        tok).fst.event_set_callback k none tok).fst.event_callback k = none ∧
    ((((s.applyUpdates k ds).event_set_callback k (some cb)
        tok).fst.event_set_callback k none
        tok).fst.update_event_status k d).state.event_unread_count k = 1 := by
  have hun : (s.applyUpdates k ds).event_unread_count k = ds.length := by
    rw [applyUpdates_unread_none k ds s hcb, hn]; simp
  refine ⟨hun, ?_, ?_, ?_, ?_, ?_⟩
  · simp [EventsManager.event_set_callback, hun]
  · simp [EventsManager.event_set_callback]
  · simp [EventsManager.event_set_callback]
  · simp [EventsManager.event_set_callback]
  · have h1 : (((s.applyUpdates k ds).event_set_callback k (some cb)
        tok).fst.event_set_callback k none tok).fst.event_callback k = none := by
      simp [EventsManager.event_set_callback]
    have h2 : (((s.applyUpdates k ds).event_set_callback k (some cb)
        tok).fst.event_set_callback k none tok).fst.event_unread_count k = 0 := by
      simp [EventsManager.event_set_callback]
    rw [(update_event_status_unread_none _ k d h1).1, h2]

/-- C2 witness: three occurrences with no callback installed on a fresh
registry give backlog 3, and installing callback 5 with token 7 produces
exactly three invocations of `(5, 7, 1)`. -/
theorem backlog_conservation_witness :
    EventsManager.init.event_callback
        rmw_zenoh_event_type_t.ZENOH_EVENT_SUBSCRIPTION_MATCHED = none ∧
    EventsManager.init.event_unread_count
        rmw_zenoh_event_type_t.ZENOH_EVENT_SUBSCRIPTION_MATCHED = 0 ∧
    ((EventsManager.init.applyUpdates
        rmw_zenoh_event_type_t.ZENOH_EVENT_SUBSCRIPTION_MATCHED
        [1, 1, -1]).event_set_callback
        rmw_zenoh_event_type_t.ZENOH_EVENT_SUBSCRIPTION_MATCHED (some 5)
        (some 7)).snd = List.replicate 3 ⟨5, some 7, 1⟩ := by
  refine ⟨rfl, rfl, ?_⟩
  exact (backlog_conservation EventsManager.init
    rmw_zenoh_event_type_t.ZENOH_EVENT_SUBSCRIPTION_MATCHED
    [1, 1, -1] 5 (some 7) 2 rfl rfl).2.1

/-- C3: the check-and-attach of
`queue_has_data_and_attach_condition_if_not` is a single atomic decision:
when the kind's `changed` flag is already true it returns `true` and the
whole state is unchanged (no attachment stored); otherwise it returns
`false` and stores the waiter as the kind's attachment, changing nothing
else. -/
theorem attach_if_empty_atomic (s : EventsManager)
    (k : rmw_zenoh_event_type_t) (w : Nat) :
    ((s.event_statuses k).changed = true →
      s.queue_has_data_and_attach_condition_if_not k w = (true, s)) ∧
    ((s.event_statuses k).changed = false →
      (s.queue_has_data_and_attach_condition_if_not k w).fst = false ∧
      (s.queue_has_data_and_attach_condition_if_not k w).snd.wait_set_data k =
        some w ∧
      (∀ k', k' ≠ k →
        (s.queue_has_data_and_attach_condition_if_not k w).snd.wait_set_data k' =
          s.wait_set_data k') ∧
      (s.queue_has_data_and_attach_condition_if_not k w).snd.event_statuses =
        s.event_statuses ∧
      (s.queue_has_data_and_attach_condition_if_not k w).snd.event_callback =
        s.event_callback ∧
      (s.queue_has_data_and_attach_condition_if_not k w).snd.event_data =
        s.event_data ∧
      (s.queue_has_data_and_attach_condition_if_not k w).snd.event_unread_count =
        s.event_unread_count) := by
  constructor
  · intro h
    simp [EventsManager.queue_has_data_and_attach_condition_if_not, h]
  · intro h
    simp only [EventsManager.queue_has_data_and_attach_condition_if_not, h]
    refine ⟨rfl, by simp, ?_, rfl, rfl, rfl, rfl⟩
    intro k' hk
    simp [Function.update_noteq hk]

/-- C3 witness: on a fresh registry (changed is false) attaching waiter 4
returns `false` and stores the attachment; on a registry with a pending
update (changed is true) it returns `true` and stores nothing. -/
theorem attach_if_empty_atomic_witness :
    ((EventsManager.init.queue_has_data_and_attach_condition_if_not
        rmw_zenoh_event_type_t.ZENOH_EVENT_MESSAGE_LOST 4).fst = false ∧
      (EventsManager.init.queue_has_data_and_attach_condition_if_not
        rmw_zenoh_event_type_t.ZENOH_EVENT_MESSAGE_LOST 4).snd.wait_set_data
          rmw_zenoh_event_type_t.ZENOH_EVENT_MESSAGE_LOST = some 4) ∧
    ((EventsManager.init.update_event_status
        rmw_zenoh_event_type_t.ZENOH_EVENT_MESSAGE_LOST
        1).state.queue_has_data_and_attach_condition_if_not
        rmw_zenoh_event_type_t.ZENOH_EVENT_MESSAGE_LOST 4) =
      (true, (EventsManager.init.update_event_status
        rmw_zenoh_event_type_t.ZENOH_EVENT_MESSAGE_LOST 1).state) := by
  constructor
  · have h := (attach_if_empty_atomic EventsManager.init
      rmw_zenoh_event_type_t.ZENOH_EVENT_MESSAGE_LOST 4).2 rfl
    exact ⟨h.1, h.2.1⟩
  · exact (attach_if_empty_atomic
      (EventsManager.init.update_event_status
        rmw_zenoh_event_type_t.ZENOH_EVENT_MESSAGE_LOST 1).state
      rmw_zenoh_event_type_t.ZENOH_EVENT_MESSAGE_LOST 4).1 (by decide)

/-- C4: no missed wakeup.  For the two serializations of
`queue_has_data_and_attach_condition_if_not` and `update_event_status` on
the same kind (the lock makes each operation atomic): either the attach
returns `true` (the caller does not block), or the update that follows it
signals exactly the attached waiter; and an attach that follows the update
returns `true`. -/
theorem no_missed_wakeup (s : EventsManager) (k : rmw_zenoh_event_type_t)
    (w : Nat) (d : Int) :
    ((s.queue_has_data_and_attach_condition_if_not k w).fst = true ∨
      ((s.queue_has_data_and_attach_condition_if_not
          k w).snd.update_event_status k d).signalled = some w) ∧
    ((s.update_event_status k d).state.queue_has_data_and_attach_condition_if_not
        k w).fst = true := by
  constructor
  · by_cases hc : (s.event_statuses k).changed
    · left
      simp [EventsManager.queue_has_data_and_attach_condition_if_not, hc]
    · right
      rw [update_event_status_signalled]
      simp [EventsManager.queue_has_data_and_attach_condition_if_not, hc]
  · simp [EventsManager.queue_has_data_and_attach_condition_if_not,
      update_event_status_state_statuses_self]

/-- C6: `detach_condition_and_event_queue_is_empty` clears the kind's
attachment (and is idempotent with the same answer when already clear) and
returns true exactly when the kind's `changed` flag is false; in
particular it returns `true` after an attach that stored the waiter with
no intervening update, and `false` after an intervening
`update_event_status`. -/
theorem detach_and_queue_empty_spec (s : EventsManager)
    (k : rmw_zenoh_event_type_t) (w : Nat) (d : Int) :
    (s.detach_condition_and_event_queue_is_empty k).fst =
      !(s.event_statuses k).changed ∧
    (s.detach_condition_and_event_queue_is_empty k).snd.wait_set_data k =
      none ∧
    ((s.detach_condition_and_event_queue_is_empty
        k).snd.detach_condition_and_event_queue_is_empty k).snd.wait_set_data
        k = none ∧
    ((s.detach_condition_and_event_queue_is_empty
        k).snd.detach_condition_and_event_queue_is_empty k).fst =
      (s.detach_condition_and_event_queue_is_empty k).fst ∧
    ((s.queue_has_data_and_attach_condition_if_not k w).fst = false →
      ((s.queue_has_data_and_attach_condition_if_not
          k w).snd.detach_condition_and_event_queue_is_empty k).fst = true) ∧
    (((s.update_event_status k
        d).state.detach_condition_and_event_queue_is_empty k).fst = false) := by
  refine ⟨rfl, by simp [EventsManager.detach_condition_and_event_queue_is_empty],
    by simp [EventsManager.detach_condition_and_event_queue_is_empty],
    rfl, ?_, ?_⟩
  · intro h
    by_cases hc : (s.event_statuses k).changed
    · simp [EventsManager.queue_has_data_and_attach_condition_if_not, hc] at h
    · simp [EventsManager.queue_has_data_and_attach_condition_if_not,
        EventsManager.detach_condition_and_event_queue_is_empty, hc]
  · simp [EventsManager.detach_condition_and_event_queue_is_empty,
      update_event_status_state_statuses_self]

/-- C6 witness: on a fresh registry, attach returns `false` and the
following detach returns `true`; with an intervening update the detach
returns `false`. -/
theorem detach_and_queue_empty_spec_witness :
    (((EventsManager.init.queue_has_data_and_attach_condition_if_not
        rmw_zenoh_event_type_t.ZENOH_EVENT_PUBLICATION_MATCHED
        9).snd.detach_condition_and_event_queue_is_empty
        rmw_zenoh_event_type_t.ZENOH_EVENT_PUBLICATION_MATCHED).fst = true) ∧
    ((((EventsManager.init.queue_has_data_and_attach_condition_if_not
        rmw_zenoh_event_type_t.ZENOH_EVENT_PUBLICATION_MATCHED
        9).snd.update_event_status
        rmw_zenoh_event_type_t.ZENOH_EVENT_PUBLICATION_MATCHED
        1).state.detach_condition_and_event_queue_is_empty
        rmw_zenoh_event_type_t.ZENOH_EVENT_PUBLICATION_MATCHED).fst = false) := by
  constructor
  · exact (detach_and_queue_empty_spec EventsManager.init
      rmw_zenoh_event_type_t.ZENOH_EVENT_PUBLICATION_MATCHED 9 1).2.2.2.2.1
      (by decide)
  · exact (detach_and_queue_empty_spec
      (EventsManager.init.queue_has_data_and_attach_condition_if_not
        rmw_zenoh_event_type_t.ZENOH_EVENT_PUBLICATION_MATCHED 9).snd
      rmw_zenoh_event_type_t.ZENOH_EVENT_PUBLICATION_MATCHED 9 1).2.2.2.2.2

/-- C7: backlog-xor-callback invariant.  In every state reachable by any
sequence of registry operations, a kind's backlog (`event_unread_count`)
is positive only while no callback is installed for that kind, and
immediately after a callback is installed the backlog is 0. -/
theorem backlog_xor_callback_invariant (s : EventsManager)
    (hs : Reachable s) (k : rmw_zenoh_event_type_t) :
    (0 < s.event_unread_count k → s.event_callback k = none) ∧
    (∀ cb tok,
      (s.event_set_callback k (some cb) tok).fst.event_unread_count k = 0) := by
  refine ⟨reachable_unread_callback hs k, ?_⟩
  intro cb tok
  simp [EventsManager.event_set_callback]

/-- C7 witness: after one update on a fresh registry the backlog of the
updated kind is positive and, by the invariant, its callback slot is
necessarily empty. -/
theorem backlog_xor_callback_invariant_witness :
    0 < (EventsManager.init.update_event_status
        rmw_zenoh_event_type_t.ZENOH_EVENT_MESSAGE_LOST
        1).state.event_unread_count
        rmw_zenoh_event_type_t.ZENOH_EVENT_MESSAGE_LOST ∧
    (EventsManager.init.update_event_status
        rmw_zenoh_event_type_t.ZENOH_EVENT_MESSAGE_LOST
        1).state.event_callback
        rmw_zenoh_event_type_t.ZENOH_EVENT_MESSAGE_LOST = none := by
  have h := backlog_xor_callback_invariant _
    (Reachable.update rmw_zenoh_event_type_t.ZENOH_EVENT_MESSAGE_LOST 1
      Reachable.base)
    rmw_zenoh_event_type_t.ZENOH_EVENT_MESSAGE_LOST
  exact ⟨by decide, h.1 (by decide)⟩

/-! ### Claim theorems for `rmw_init_options.cpp` -/

/-- A concrete environment in which every external collaborator
succeeds. -/
def envA : Env :=
  { default_security_options := 1
    security_copy := fun v _ => (RMW_RET_OK, v)
    discovery_copy := fun v _ => (RMW_RET_OK, v)
    discovery_init := fun v _ => (RMW_RET_OK, v)
    security_fini := fun _ _ => RMW_RET_OK
    discovery_fini := fun _ => RMW_RET_OK
    strdup := fun s _ => some s }

/-- A concrete environment in which `rmw_security_options_fini` fails. -/
def envB : Env :=
  { envA with security_fini := fun _ _ => RMW_RET_ERROR }

/-- A concrete valid, zero-initialized options value paired with a valid
allocator: the state after a successful `rmw_init_options_init` in
`envA`. -/
def optA : rmw_init_options_t :=
  { instance_id := 0
    implementation_identifier := some rmw_zenoh_identifier
    domain_id := RMW_DEFAULT_DOMAIN_ID
    security_options := 1
    discovery_options := 0
    enclave := some "enclave"
    impl := none
    allocator := { valid := true, id := 1 } }

/-- C8: `rmw_init_options_copy` is atomic in `dst`: whenever it returns
anything other than `RMW_RET_OK` (invalid arguments, identifier mismatch,
a failing security-options copy, a failing discovery-options copy, or a
failed enclave duplication), `*dst` is left unchanged; and it returns
`RMW_RET_OK` only when the security copy, the discovery copy and the
enclave duplication all succeeded. -/
theorem init_options_copy_atomic (env : Env)
    (src dst : Option rmw_init_options_t) :
    ((rmw_init_options_copy env src dst).fst ≠ RMW_RET_OK →
      (rmw_init_options_copy env src dst).snd = dst) ∧
    ((rmw_init_options_copy env src dst).fst = RMW_RET_OK →
      ∃ s, src = some s ∧
        (env.security_copy s.security_options s.allocator).fst = RMW_RET_OK ∧
        (env.discovery_copy s.discovery_options s.allocator).fst =
          RMW_RET_OK ∧
        ∀ e, s.enclave = some e → env.strdup e s.allocator ≠ none) := by
  cases src with
  | none => simp [rmw_init_options_copy]
  | some s =>
    cases dst with
    | none => simp [rmw_init_options_copy]
    | some d =>
      simp only [rmw_init_options_copy]
      by_cases h1 : s.implementation_identifier = none
      · simp [h1]
      · by_cases h2 : s.implementation_identifier = some rmw_zenoh_identifier
        · by_cases h3 : d.implementation_identifier = none
          · by_cases h4 : s.allocator.valid
            · by_cases h5 :
                (env.security_copy s.security_options s.allocator).fst =
                  RMW_RET_OK
              · by_cases h6 :
                  (env.discovery_copy s.discovery_options s.allocator).fst =
                    RMW_RET_OK
                · cases henc : s.enclave with
                  | none => simp [h1, h2, h3, h4, h5, h6, henc]
                  | some e =>
                    cases hstr : env.strdup e s.allocator with
                    | none => simp [h1, h2, h3, h4, h5, h6, henc, hstr]
                    | some e2 =>
                      simp [h1, h2, h3, h4, h5, h6, henc, hstr]
                · simp [h1, h2, h3, h4, h5, h6]
              · simp [h1, h2, h3, h4, h5]
            · simp [h1, h2, h3, h4]
          · simp [h1, h2, h3]
        · simp [h1, h2]

/-- C8 witness: with a null `src` the copy fails and leaves `dst`
unchanged; with the valid source `optA` in `envA` the copy returns
`RMW_RET_OK` and the sub-copies all succeeded. -/
theorem init_options_copy_atomic_witness :
    (rmw_init_options_copy envA none
        (some rmw_get_zero_initialized_init_options)).snd =
      some rmw_get_zero_initialized_init_options ∧
    ∃ s, some optA = some s ∧
      (envA.security_copy s.security_options s.allocator).fst = RMW_RET_OK ∧
      (envA.discovery_copy s.discovery_options s.allocator).fst =
        RMW_RET_OK ∧
      ∀ e, s.enclave = some e → envA.strdup e s.allocator ≠ none := by
  constructor
  · exact (init_options_copy_atomic envA none
      (some rmw_get_zero_initialized_init_options)).1 (by decide)
  · exact (init_options_copy_atomic envA (some optA)
      (some rmw_get_zero_initialized_init_options)).2 (by decide)

/-- C9: provided the external `rmw_discovery_options_init` does not itself
report `RMW_RET_INVALID_ARGUMENT`, `rmw_init_options_init` returns
`RMW_RET_INVALID_ARGUMENT` exactly when its argument is null, the
allocator is invalid, or the options are not zero-initialized (non-null
`implementation_identifier`); otherwise it fills the structure with the
zenoh identifier, the given allocator, the default domain id, the default
security options and the initialized discovery options, and returns the
result of `rmw_discovery_options_init`. -/
theorem init_options_init_spec (env : Env)
    (init_options : Option rmw_init_options_t)
    (allocator : rcutils_allocator_t)
    (hd : (env.discovery_init 0 allocator).fst ≠ RMW_RET_INVALID_ARGUMENT) :
    ((rmw_init_options_init env init_options allocator).fst =
        RMW_RET_INVALID_ARGUMENT ↔
      (init_options = none ∨ allocator.valid = false ∨
        ∃ o, init_options = some o ∧ o.implementation_identifier ≠ none)) ∧
    (∀ o, init_options = some o → allocator.valid = true →
      o.implementation_identifier = none →
      rmw_init_options_init env init_options allocator =
        ((env.discovery_init 0 allocator).fst,
          some { instance_id := 0
                 implementation_identifier := some rmw_zenoh_identifier
                 domain_id := RMW_DEFAULT_DOMAIN_ID
                 security_options := env.default_security_options
                 discovery_options := (env.discovery_init 0 allocator).snd
                 enclave := none
                 impl := none
                 allocator := allocator })) := by
  cases init_options with
  | none => simp [rmw_init_options_init]
  | some o =>
    by_cases hv : allocator.valid
    · by_cases hi : o.implementation_identifier = none
      · constructor
        · simp [rmw_init_options_init, hv, hi, hd]
        · intro o' ho' hval hid
          have : o' = o := by injection ho' with h; exact h.symm
          subst this
          simp [rmw_init_options_init, hv, hi,
            rmw_get_zero_initialized_init_options]
      · constructor
        · simp [rmw_init_options_init, hv, hi]
        · intro o' ho' hval hid
          have : o' = o := by injection ho' with h; exact h.symm
          subst this
          exact absurd hid hi
    · constructor
      · simp [rmw_init_options_init, hv]
      · intro o' ho' hval hid
        rw [hval] at hv
        exact absurd rfl hv

/-- C9 witness: initializing a zero-initialized options value with a valid
allocator in `envA` succeeds and fills every field as specified. -/
theorem init_options_init_spec_witness :
    rmw_init_options_init envA (some rmw_get_zero_initialized_init_options)
        { valid := true, id := 1 } =
      (RMW_RET_OK,
        some { instance_id := 0
               implementation_identifier := some rmw_zenoh_identifier
               domain_id := RMW_DEFAULT_DOMAIN_ID
               security_options := 1
               discovery_options := 0
               enclave := none
               impl := none
               allocator := { valid := true, id := 1 } }) := by
  have h := (init_options_init_spec envA
    (some rmw_get_zero_initialized_init_options)
    { valid := true, id := 1 } (by decide)).2
    rmw_get_zero_initialized_init_options rfl rfl rfl
  exact h.trans (by decide)

/-- C10: `rmw_init_options_fini` returns `RMW_RET_INVALID_ARGUMENT` for a
null argument, a null `implementation_identifier` or an invalid allocator,
and `RMW_RET_INCORRECT_RMW_IMPLEMENTATION` for a mismatched identifier; a
failing `rmw_security_options_fini` is returned as-is with
`*init_options` untouched (in particular not zeroed); otherwise the struct
is zeroed and the result of `rmw_discovery_options_fini` is returned — so
whenever the function returns `RMW_RET_OK` the options have been set to
the zero-initialized value. -/
theorem init_options_fini_spec (env : Env) (o : rmw_init_options_t) :
    rmw_init_options_fini env none = (RMW_RET_INVALID_ARGUMENT, none) ∧
    (o.implementation_identifier = none →
      rmw_init_options_fini env (some o) =
        (RMW_RET_INVALID_ARGUMENT, some o)) ∧
    (∀ x, o.implementation_identifier = some x → x ≠ rmw_zenoh_identifier →
      rmw_init_options_fini env (some o) =
        (RMW_RET_INCORRECT_RMW_IMPLEMENTATION, some o)) ∧
    (o.implementation_identifier = some rmw_zenoh_identifier →
      o.allocator.valid = false →
      rmw_init_options_fini env (some o) =
        (RMW_RET_INVALID_ARGUMENT, some o)) ∧
    (o.implementation_identifier = some rmw_zenoh_identifier →
      o.allocator.valid = true →
      env.security_fini o.security_options o.allocator ≠ RMW_RET_OK →
      rmw_init_options_fini env (some o) =
        (env.security_fini o.security_options o.allocator, some o) ∧
        o ≠ rmw_get_zero_initialized_init_options) ∧
    (o.implementation_identifier = some rmw_zenoh_identifier →
      o.allocator.valid = true →
      env.security_fini o.security_options o.allocator = RMW_RET_OK →
      rmw_init_options_fini env (some o) =
        (env.discovery_fini o.discovery_options,
          some rmw_get_zero_initialized_init_options)) ∧
    (∀ opts, (rmw_init_options_fini env opts).fst = RMW_RET_OK →
      (rmw_init_options_fini env opts).snd =
        some rmw_get_zero_initialized_init_options) := by
  refine ⟨rfl, ?_, ?_, ?_, ?_, ?_, ?_⟩
  · intro h; simp [rmw_init_options_fini, h]
  · intro x hx hne
    simp [rmw_init_options_fini, hx, hne]
  · intro hx hval
    simp [rmw_init_options_fini, hx, hval]
  · intro hx hval hsec
    refine ⟨by simp [rmw_init_options_fini, hx, hval, hsec], ?_⟩
    intro hc
    rw [hc] at hx
    simp [rmw_get_zero_initialized_init_options] at hx
  · intro hx hval hsec
    simp [rmw_init_options_fini, hx, hval, hsec]
  · intro opts h
    cases opts with
    | none => simp [rmw_init_options_fini] at h
    | some o' =>
      by_cases h1 : o'.implementation_identifier = none
      · simp [rmw_init_options_fini, h1] at h
      · by_cases h2 : o'.implementation_identifier = some rmw_zenoh_identifier
        · by_cases h3 : o'.allocator.valid
          · by_cases h4 :
              env.security_fini o'.security_options o'.allocator = RMW_RET_OK
            · simp [rmw_init_options_fini, h1, h2, h3, h4]
            · simp [rmw_init_options_fini, h1, h2, h3, h4] at h

          · simp [rmw_init_options_fini, h1, h2, h3] at h
        · simp [rmw_init_options_fini, h1, h2] at h

/-- C10 witness: finalizing the valid options `optA` succeeds in `envA`
and zeroes the struct; in `envB`, where the security-options teardown
fails, the error is propagated and the struct is left untouched. -/
theorem init_options_fini_spec_witness :
    rmw_init_options_fini envA (some optA) =
      (RMW_RET_OK, some rmw_get_zero_initialized_init_options) ∧
    rmw_init_options_fini envB (some optA) = (RMW_RET_ERROR, some optA) := by
  constructor
  · exact ((init_options_fini_spec envA optA).2.2.2.2.2.1 rfl rfl
      (by decide)).trans (by decide)
  · exact (((init_options_fini_spec envB optA).2.2.2.2.1 rfl rfl
      (by decide)).1).trans (by decide)

end RmwZenoh
